import Mathlib

/-!
Shallow embedding of the UTRA_HACKS robot control code (sensors.cpp,
navigation.cpp, servos.cpp, section1.ino, and the section-3 standalone
sketch), together with theorems settling the spec claims about it.

Machine integers: the target board is a 32-bit ARM (Arduino UNO R4), so
`uint16_t` operands promote to 32-bit signed `int` before arithmetic such
as `g - COLOR_MARGIN`; we model those comparisons over `Int` (no wrap
occurs for the 16-bit input range).  Float distances are modelled over
`Rat`; none of the claims depend on float rounding.
-/

/-- `enum Color` from sensors.h. -/
inductive Color : Type
  | NONE
  | BLACK
  | WHITE
  | RED
  | GREEN
  | BLUE
  deriving DecidableEq, Repr

/-- `enum NavResult` from navigation.h. -/
inductive NavResult : Type
  | CONTINUE
  | TARGET_FOUND
  | OBSTACLE
  | LOST
  | TIMEOUT
  deriving DecidableEq, Repr

/-- One drive call on the Motors actuator interface (motors.h), with its
commanded speed. -/
inductive MotorCmd : Type
  | stop
  | forward (speed : Nat)
  | backward (speed : Nat)
  | turnLeft (speed : Nat)
  | turnRight (speed : Nat)
  | curveLeft (speed : Nat)
  | curveRight (speed : Nat)
  deriving DecidableEq, Repr

-- Constants from constants.h.
def SPEED_SLOW : Nat := 100
def SPEED_NORMAL : Nat := 150
def SPEED_TURN : Nat := 120
def DIST_OBSTACLE : ℚ := 15
def DIST_WALL_HUG : ℚ := 10
def DIST_BOX_PICKUP : ℚ := 5
def COLOR_FREQ_MAX : Nat := 150
def COLOR_FREQ_BLACK : Nat := 200
def COLOR_FREQ_WHITE : Nat := 50
def COLOR_MARGIN : Int := 20
def SERVO_CLAMP_OPEN : Nat := 90
def SERVO_CLAMP_CLOSED : Nat := 0
def SERVO_ARM_UP : Nat := 90
def SERVO_ARM_DOWN : Nat := 0
def SERVO_ARM_CARRY : Nat := 45
def ULTRA_SPEED_CM : ℚ := 34 / 1000

/-- `struct SensorData` from sensors.h (the raw channel frequencies are
carried but the decision code reads only the derived fields). -/
structure SensorData : Type where
  redFreq : Nat
  greenFreq : Nat
  blueFreq : Nat
  detectedColor : Color
  previousColor : Color
  distance : ℚ
  obstacleDetected : Bool
  leftOnLine : Bool
  rightOnLine : Bool
  deriving DecidableEq, Repr

namespace Sensors

/-- `Sensors::detectColor` (sensors.cpp): threshold classifier for the
TCS3200 frequency counts.  The margin comparisons `r < g - COLOR_MARGIN`
are on `int`-promoted operands, hence the `Int` casts. -/
def detectColor (r g b : Nat) : Color :=
  if r > COLOR_FREQ_BLACK ∧ g > COLOR_FREQ_BLACK ∧ b > COLOR_FREQ_BLACK then
    Color.BLACK
  else if r < COLOR_FREQ_WHITE ∧ g < COLOR_FREQ_WHITE ∧ b < COLOR_FREQ_WHITE then
    Color.WHITE
  else if (r : Int) < (g : Int) - COLOR_MARGIN ∧ (r : Int) < (b : Int) - COLOR_MARGIN
      ∧ r < COLOR_FREQ_MAX then
    Color.RED
  else if (g : Int) < (r : Int) - COLOR_MARGIN ∧ (g : Int) < (b : Int) - COLOR_MARGIN
      ∧ g < COLOR_FREQ_MAX then
    Color.GREEN
  else if (b : Int) < (r : Int) - COLOR_MARGIN ∧ (b : Int) < (g : Int) - COLOR_MARGIN
      ∧ b < COLOR_FREQ_MAX then
    Color.BLUE
  else
    Color.NONE

/-- Classification tail of `readColor()` in the section-3 standalone sketch
(after the 0 -> 999 timeout substitution).  Unlike `Sensors::detectColor`
it has no WHITE stage. -/
def detectColorSection3 (r g b : Nat) : Color :=
  if r > COLOR_FREQ_BLACK ∧ g > COLOR_FREQ_BLACK ∧ b > COLOR_FREQ_BLACK then
    Color.BLACK
  else if (r : Int) < (g : Int) - COLOR_MARGIN ∧ (r : Int) < (b : Int) - COLOR_MARGIN
      ∧ r < COLOR_FREQ_MAX then
    Color.RED
  else if (g : Int) < (r : Int) - COLOR_MARGIN ∧ (g : Int) < (b : Int) - COLOR_MARGIN
      ∧ g < COLOR_FREQ_MAX then
    Color.GREEN
  else if (b : Int) < (r : Int) - COLOR_MARGIN ∧ (b : Int) < (g : Int) - COLOR_MARGIN
      ∧ b < COLOR_FREQ_MAX then
    Color.BLUE
  else
    Color.NONE

/-- `Sensors::readDistance` (sensors.cpp) as a function of the measured
echo pulse duration in microseconds: duration 0 (pulseIn timeout) yields
the 999 sentinel, otherwise `duration * 0.034 / 2` centimeters. -/
def readDistance (duration : Nat) : ℚ :=
  if duration = 0 then 999 else (duration * ULTRA_SPEED_CM) / 2

/-- The derivation `data.obstacleDetected = (data.distance > 0 && data.distance
< DIST_OBSTACLE)` from `Sensors::readUltrasonic` (sensors.cpp). -/
def obstacleFlag (d : ℚ) : Bool :=
  decide (d > 0 ∧ d < DIST_OBSTACLE)

/-- `Sensors::readUltrasonic` (sensors.cpp): fills distance and the derived
obstacle flag from one echo duration. -/
def readUltrasonic (duration : Nat) : ℚ × Bool :=
  let d := readDistance duration
  (d, obstacleFlag d)

end Sensors

namespace Navigation

/-- `Navigation::followBlackLine` (navigation.cpp): obstacle priority, then
the (leftOnLine, rightOnLine) decision tree.  Returns the single drive
call it issues together with the `NavResult`. -/
def followBlackLine (data : SensorData) : MotorCmd × NavResult :=
  if data.obstacleDetected then
    (MotorCmd.stop, NavResult.OBSTACLE)
  else if data.leftOnLine ∧ data.rightOnLine then
    (MotorCmd.forward SPEED_NORMAL, NavResult.CONTINUE)
  else if data.leftOnLine ∧ ¬ data.rightOnLine then
    (MotorCmd.curveLeft SPEED_NORMAL, NavResult.CONTINUE)
  else if ¬ data.leftOnLine ∧ data.rightOnLine then
    (MotorCmd.curveRight SPEED_NORMAL, NavResult.CONTINUE)
  else
    (MotorCmd.forward SPEED_SLOW, NavResult.LOST)

/-- `Navigation::followColorLine` (navigation.cpp).  `searchCount` is the
static lost-counter; the result triple is (drive call, new counter,
NavResult). -/
def followColorLine (searchCount : Nat) (data : SensorData) (targetColor : Color) :
    MotorCmd × Nat × NavResult :=
  if data.obstacleDetected then
    (MotorCmd.stop, searchCount, NavResult.OBSTACLE)
  else if data.detectedColor = targetColor then
    (MotorCmd.forward SPEED_NORMAL, 0, NavResult.CONTINUE)
  else if data.detectedColor ≠ Color.NONE ∧ data.detectedColor ≠ targetColor then
    (MotorCmd.stop, searchCount, NavResult.TARGET_FOUND)
  else
    let c := searchCount + 1
    (MotorCmd.forward SPEED_SLOW, c,
      if c > 10 then NavResult.LOST else NavResult.CONTINUE)

end Navigation

/-- The Decision Engine's static search state (`Navigation::searchDirection`,
`Navigation::searchCount` in navigation.cpp). -/
structure NavState : Type where
  searchDirection : Int
  searchCount : Nat
  deriving DecidableEq, Repr

namespace Navigation

/-- `Navigation::navigateToCenter` (navigation.cpp).  Returns the list of
drive calls issued during the invocation (in order), the updated search
state, and the `NavResult`. -/
def navigateToCenter (s : NavState) (data : SensorData) :
    List MotorCmd × NavState × NavResult :=
  -- Motors::forward(SPEED_SLOW); delay(100)
  if data.detectedColor ≠ data.previousColor ∧ data.detectedColor ≠ Color.NONE then
    ([MotorCmd.forward SPEED_SLOW], ⟨s.searchDirection, 0⟩, NavResult.TARGET_FOUND)
  else
    let c := s.searchCount + 1
    if c > 5 then
      ([MotorCmd.forward SPEED_SLOW,
        if s.searchDirection > 0 then MotorCmd.turnRight SPEED_TURN
        else MotorCmd.turnLeft SPEED_TURN,
        MotorCmd.stop],
       ⟨-s.searchDirection, 0⟩, NavResult.CONTINUE)
    else
      ([MotorCmd.forward SPEED_SLOW], ⟨s.searchDirection, c⟩, NavResult.CONTINUE)

/-- Iterate `navigateToCenter` over a sequence of snapshots, collecting the
per-invocation command traces and the final search state. -/
def navRun (s : NavState) : List SensorData → List (List MotorCmd) × NavState
  | [] => ([], s)
  | data :: rest =>
    let step := navigateToCenter s data
    let tail := navRun step.2.1 rest
    (step.1 :: tail.1, tail.2)

/-- `Navigation::turn` (navigation.cpp): timed pivot, positive degrees turn
right, negative left, always followed by `Motors::stop()`. -/
def turn (degrees : Int) (speed : Nat) : List MotorCmd :=
  [if degrees > 0 then MotorCmd.turnRight speed else MotorCmd.turnLeft speed,
   MotorCmd.stop]

/-- Loop body of `Navigation::wallHugUntilClear` (navigation.cpp), reading
distances from the oracle `ds` starting at index `i`; returns the drive
calls issued inside the loop and the number of distance readings taken. -/
def wallHugAux (ds : Nat → ℚ) : Nat → Nat → List MotorCmd × Nat
  | 0, _ => ([], 0)
  | fuel + 1, i =>
    let dist := ds i
    if dist < DIST_WALL_HUG - 3 then
      -- Too close, veer right
      let rest := wallHugAux ds fuel (i + 1)
      (MotorCmd.curveRight SPEED_NORMAL :: rest.1, rest.2 + 1)
    else if dist < DIST_WALL_HUG + 5 ∧ dist > 0 then
      -- Good distance, parallel
      let rest := wallHugAux ds fuel (i + 1)
      (MotorCmd.forward SPEED_NORMAL :: rest.1, rest.2 + 1)
    else if dist > DIST_WALL_HUG + 10 ∨ dist ≥ 999 then
      -- Lost wall, passed obstacle
      ([], 1)
    else
      -- No branch taken: no drive call this step, keep looping
      let rest := wallHugAux ds fuel (i + 1)
      (rest.1, rest.2 + 1)

/-- `Navigation::wallHugUntilClear` (navigation.cpp): up to `maxSteps` loop
iterations, then `Motors::stop()`. -/
def wallHugUntilClear (ds : Nat → ℚ) (maxSteps : Nat) : List MotorCmd × Nat :=
  let body := wallHugAux ds maxSteps 0
  (body.1 ++ [MotorCmd.stop], body.2)

/-- `Navigation::avoidObstacleRight` (navigation.cpp): the blocking compound
maneuver, as the ordered list of drive calls it issues.  `ds` supplies the
distance readings consumed by the embedded wall-hug. -/
def avoidObstacleRight (ds : Nat → ℚ) : List MotorCmd × NavResult :=
  ([MotorCmd.stop]
    ++ turn 90 SPEED_TURN
    ++ [MotorCmd.forward SPEED_NORMAL]
    ++ turn (-90) SPEED_TURN
    ++ (wallHugUntilClear ds 30).1
    ++ turn (-90) SPEED_TURN
    ++ [MotorCmd.forward SPEED_NORMAL]
    ++ turn 90 SPEED_TURN
    ++ [MotorCmd.stop],
   NavResult.CONTINUE)

end Navigation

/-- Logical state of the gripper servos (`Servos` statics in servos.cpp). -/
structure ServoState : Type where
  holding : Bool
  clampAngle : Nat
  armAngle : Nat
  deriving DecidableEq, Repr

namespace Servos

/-- `Servos::armDown` (servos.cpp). -/
def armDown (s : ServoState) : ServoState :=
  { s with armAngle := SERVO_ARM_DOWN }

/-- `Servos::armCarry` (servos.cpp). -/
def armCarry (s : ServoState) : ServoState :=
  { s with armAngle := SERVO_ARM_CARRY }

/-- `Servos::openClamp` (servos.cpp). -/
def openClamp (s : ServoState) : ServoState :=
  { s with clampAngle := SERVO_CLAMP_OPEN }

/-- `Servos::closeClamp` (servos.cpp). -/
def closeClamp (s : ServoState) : ServoState :=
  { s with clampAngle := SERVO_CLAMP_CLOSED }

/-- `Servos::pickup` (servos.cpp): armDown; closeClamp; armCarry; then set
`holding = true` unconditionally. -/
def pickup (s : ServoState) : ServoState :=
  let s1 := armDown s
  let s2 := closeClamp s1
  let s3 := armCarry s2
  { s3 with holding := true }

/-- `Servos::drop` (servos.cpp): armDown; openClamp; armCarry; then set
`holding = false` unconditionally. -/
def drop (s : ServoState) : ServoState :=
  let s1 := armDown s
  let s2 := openClamp s1
  let s3 := armCarry s2
  { s3 with holding := false }

/-- `Servos::isHolding` (servos.cpp). -/
def isHolding (s : ServoState) : Bool :=
  s.holding

end Servos

/-- `enum State` of section1.ino. -/
inductive S1State : Type
  | INIT
  | FOLLOW_BLACK
  | APPROACH_BOX
  | PICKUP
  | FIND_INTERSECTION
  | SELECT_GREEN
  | FOLLOW_GREEN
  | APPROACH_BLUE
  | DROP
  | TO_REUPLOAD
  | COMPLETE
  deriving DecidableEq, Repr

namespace Section1

/-- `processState` case `STATE_PICKUP` (section1.ino): run the pickup
sequence, then advance iff `Servos::isHolding()`.  Returns the servo state
after the sequence and the transition taken (if any). -/
def processPickup (sv : ServoState) : ServoState × Option S1State :=
  let sv1 := Servos.pickup sv
  (sv1, if Servos.isHolding sv1 then some S1State.FIND_INTERSECTION else none)

/-- `processState` case `STATE_FOLLOW_GREEN` (section1.ino): follow the
green line; transition to APPROACH_BLUE iff the snapshot color is BLUE
(a `NAV_LOST` result additionally triggers a blocking `searchForLine`
call, which never transitions).  Returns the transition taken (if any)
and the updated lost-counter. -/
def processFollowGreen (searchCount : Nat) (data : SensorData) :
    Option S1State × Nat :=
  let step := Navigation.followColorLine searchCount data Color.GREEN
  (if data.detectedColor = Color.BLUE then some S1State.APPROACH_BLUE else none,
   step.2.1)

/-- `processState` case `STATE_TO_REUPLOAD` (section1.ino): follow the green
line; force a transition to COMPLETE once more than 3000 ms have elapsed
in the state.  `now` and `stateStart` are `millis()` timestamps. -/
def processToReupload (searchCount : Nat) (data : SensorData)
    (now stateStart : Nat) : Option S1State × Nat :=
  let step := Navigation.followColorLine searchCount data Color.GREEN
  (if now - stateStart > 3000 then some S1State.COMPLETE else none,
   step.2.1)

/-- Run `processFollowGreen` for `n` ticks against a fixed snapshot,
threading the lost-counter; yields the first transition taken, if any
tick takes one. -/
def followGreenRun (data : SensorData) : Nat → Nat → Option S1State
  | 0, _ => none
  | n + 1, c =>
    let step := processFollowGreen c data
    match step.1 with
    | some s => some s
    | none => followGreenRun data n step.2

end Section1

/-- A snapshot from a sensor that detects nothing: no echo (999 sentinel),
color NONE, both IR sensors off the line. -/
def allNoneSnapshot : SensorData :=
  { redFreq := 999, greenFreq := 999, blueFreq := 999
    detectedColor := Color.NONE, previousColor := Color.NONE
    distance := 999, obstacleDetected := false
    leftOnLine := false, rightOnLine := false }

/-- Snapshot with the left reflectance sensor on the line, the right one
off, and no obstacle. -/
def leftOnlySnapshot : SensorData :=
  { allNoneSnapshot with leftOnLine := true, rightOnLine := false }

/-- Snapshot with an obstacle in range and both reflectance sensors on the
line. -/
def obstacleSnapshot : SensorData :=
  { allNoneSnapshot with
      distance := 8, obstacleDetected := true, leftOnLine := true, rightOnLine := true }

/-- Snapshot seeing GREEN, with GREEN also seen on the prior tick. -/
def steadyGreenSnapshot : SensorData :=
  { allNoneSnapshot with detectedColor := Color.GREEN, previousColor := Color.GREEN }

/-- Snapshot seeing RED after GREEN (a ring-boundary crossing). -/
def redAfterGreenSnapshot : SensorData :=
  { allNoneSnapshot with detectedColor := Color.RED, previousColor := Color.GREEN }

/-- The RED/GREEN/BLUE stage as the spec's sentence literally reads: first
channel, in the order RED, GREEN, BLUE, that is lower than each of the
other two channels by AT LEAST the margin and below the validity
ceiling; NONE when no channel qualifies.  Stated for comparison with
`Sensors.detectColor`, whose margin test is strict. -/
def specAtLeastMarginStage (r g b : Nat) : Color :=
  if COLOR_MARGIN ≤ (g : Int) - (r : Int) ∧ COLOR_MARGIN ≤ (b : Int) - (r : Int)
      ∧ r < COLOR_FREQ_MAX then
    Color.RED
  else if COLOR_MARGIN ≤ (r : Int) - (g : Int) ∧ COLOR_MARGIN ≤ (b : Int) - (g : Int)
      ∧ g < COLOR_FREQ_MAX then
    Color.GREEN
  else if COLOR_MARGIN ≤ (r : Int) - (b : Int) ∧ COLOR_MARGIN ≤ (g : Int) - (b : Int)
      ∧ b < COLOR_FREQ_MAX then
    Color.BLUE
  else
    Color.NONE

/-- The RED/GREEN/BLUE stage with the margin test amended to STRICTLY MORE
than the margin (the difference must exceed 20), as the code enforces. -/
def strictMarginStage (r g b : Nat) : Color :=
  if COLOR_MARGIN < (g : Int) - (r : Int) ∧ COLOR_MARGIN < (b : Int) - (r : Int)
      ∧ r < COLOR_FREQ_MAX then
    Color.RED
  else if COLOR_MARGIN < (r : Int) - (g : Int) ∧ COLOR_MARGIN < (b : Int) - (g : Int)
      ∧ g < COLOR_FREQ_MAX then
    Color.GREEN
  else if COLOR_MARGIN < (r : Int) - (b : Int) ∧ COLOR_MARGIN < (g : Int) - (b : Int)
      ∧ b < COLOR_FREQ_MAX then
    Color.BLUE
  else
    Color.NONE

/-- The three wall-hug zones exactly as the claim describes them: too close
(below hug distance minus 3), within tolerance (positive and below hug
distance plus 5), too far (beyond hug distance plus 10, or the 999
sentinel). -/
def threeZoneCover (d : ℚ) : Prop :=
  d < DIST_WALL_HUG - 3
    ∨ (0 < d ∧ d < DIST_WALL_HUG + 5)
    ∨ (DIST_WALL_HUG + 10 < d ∨ 999 ≤ d)

/-- The four zones the wall-hug loop body actually distinguishes. -/
inductive HugZone : Type
  | tooClose
  | inBand
  | deadBand
  | lostWall
  deriving DecidableEq, Repr

/-- Zone classification of one wall-hug distance reading, matching the
branch structure of `Navigation::wallHugUntilClear`. -/
def hugZone (d : ℚ) : HugZone :=
  if d < DIST_WALL_HUG - 3 then HugZone.tooClose
  else if d < DIST_WALL_HUG + 5 ∧ d > 0 then HugZone.inBand
  else if d > DIST_WALL_HUG + 10 ∨ d ≥ 999 then HugZone.lostWall
  else HugZone.deadBand

/-- A ring-search tick on which the classified color is unchanged from the
previous tick and is not NONE. -/
def ringSameTick (data : SensorData) : Prop :=
  data.detectedColor = data.previousColor ∧ data.detectedColor ≠ Color.NONE

instance (data : SensorData) : Decidable (ringSameTick data) := by
  unfold ringSameTick
  infer_instance

/-- The pivot command `navigateToCenter` issues when its search bound is
hit: right when `searchDirection > 0`, left otherwise. -/
def pivotCmd (d : Int) : MotorCmd :=
  if d > 0 then MotorCmd.turnRight SPEED_TURN else MotorCmd.turnLeft SPEED_TURN

/-- A command trace with the `stop` calls removed (used to state the order
of the steering commands of a compound maneuver). -/
def nonStop (t : List MotorCmd) : List MotorCmd :=
  t.filter fun c => decide (c ≠ MotorCmd.stop)

/-- Six consecutive ring-search ticks that all see steady GREEN. -/
def sixSteadyGreen : List SensorData :=
  List.replicate 6 steadyGreenSnapshot

/-- Reference wall-hug loop driven by the zone classification: curve away
when too close, straight when in band, exit early when the wall is lost,
and no drive call (loop keeps running) in the dead band. -/
def wallHugZonesAux (ds : Nat → ℚ) : Nat → Nat → List MotorCmd × Nat
  | 0, _ => ([], 0)
  | fuel + 1, i =>
    match hugZone (ds i) with
    | HugZone.tooClose =>
      let rest := wallHugZonesAux ds fuel (i + 1)
      (MotorCmd.curveRight SPEED_NORMAL :: rest.1, rest.2 + 1)
    | HugZone.inBand =>
      let rest := wallHugZonesAux ds fuel (i + 1)
      (MotorCmd.forward SPEED_NORMAL :: rest.1, rest.2 + 1)
    | HugZone.lostWall => ([], 1)
    | HugZone.deadBand =>
      let rest := wallHugZonesAux ds fuel (i + 1)
      (rest.1, rest.2 + 1)

/-- C1: with `leftOnLine = true`, `rightOnLine = false` and no obstacle,
`Navigation::followBlackLine` issues exactly the curveLeft drive command
(hence never curveRight) and continues, for every other snapshot field;
and with `obstacleDetected = true` it issues stop and returns OBSTACLE
regardless of the IR flags. -/
theorem followBlackLine_C1 (data : SensorData) :
    (data.obstacleDetected = false → data.leftOnLine = true → data.rightOnLine = false →
      Navigation.followBlackLine data = (MotorCmd.curveLeft SPEED_NORMAL, NavResult.CONTINUE)) ∧
    (data.obstacleDetected = true →
      Navigation.followBlackLine data = (MotorCmd.stop, NavResult.OBSTACLE)) := by
  constructor
  · intro ho hl hr
    simp [Navigation.followBlackLine, ho, hl, hr]
  · intro ho
    simp [Navigation.followBlackLine, ho]

/-- Witness for C1 at two concrete snapshots. -/
theorem followBlackLine_C1_witness :
    leftOnlySnapshot.obstacleDetected = false ∧ leftOnlySnapshot.leftOnLine = true ∧
    leftOnlySnapshot.rightOnLine = false ∧ obstacleSnapshot.obstacleDetected = true ∧
    Navigation.followBlackLine leftOnlySnapshot =
      (MotorCmd.curveLeft SPEED_NORMAL, NavResult.CONTINUE) ∧
    Navigation.followBlackLine obstacleSnapshot = (MotorCmd.stop, NavResult.OBSTACLE) :=
  ⟨rfl, rfl, rfl, rfl,
   (followBlackLine_C1 leftOnlySnapshot).1 rfl rfl rfl,
   (followBlackLine_C1 obstacleSnapshot).2 rfl⟩

/-- C3: for every obstacle-free snapshot, `Navigation::followColorLine`
with a target color T: on T, drives forward, resets the lost-counter and
continues; on a different non-NONE color, stops and reports TARGET_FOUND;
on NONE, crawls slowly, increments the lost-counter, and reports LOST
exactly when the incremented counter exceeds 10, CONTINUE otherwise. -/
theorem followColorLine_C3 (count : Nat) (data : SensorData) (T : Color)
    (hobs : data.obstacleDetected = false) (hT : T ≠ Color.NONE) :
    (data.detectedColor = T →
      Navigation.followColorLine count data T =
        (MotorCmd.forward SPEED_NORMAL, 0, NavResult.CONTINUE)) ∧
    (data.detectedColor ≠ Color.NONE → data.detectedColor ≠ T →
      Navigation.followColorLine count data T =
        (MotorCmd.stop, count, NavResult.TARGET_FOUND)) ∧
    (data.detectedColor = Color.NONE →
      Navigation.followColorLine count data T =
        (MotorCmd.forward SPEED_SLOW, count + 1,
          if count + 1 > 10 then NavResult.LOST else NavResult.CONTINUE)) := by
  refine ⟨?_, ?_, ?_⟩
  · intro h
    simp [Navigation.followColorLine, hobs, h]
  · intro h1 h2
    simp [Navigation.followColorLine, hobs, h1, h2]
  · intro h
    have hne : ¬ (data.detectedColor = T) := by
      rw [h]; exact fun hc => hT hc.symm
    simp [Navigation.followColorLine, hobs, hne, h, Ne.symm hT]

/-- Witness for C3: a lost-counter at 10 crossing the LOST bound on a NONE
reading. -/
theorem followColorLine_C3_witness :
    allNoneSnapshot.obstacleDetected = false ∧ Color.GREEN ≠ Color.NONE ∧
    allNoneSnapshot.detectedColor = Color.NONE ∧
    Navigation.followColorLine 10 allNoneSnapshot Color.GREEN =
      (MotorCmd.forward SPEED_SLOW, 11, NavResult.LOST) := by
  refine ⟨rfl, by decide, rfl, ?_⟩
  have h := (followColorLine_C3 10 allNoneSnapshot Color.GREEN rfl (by decide)).2.2 rfl
  simpa using h

/-- C4: the obstacle flag is a pure function of distance, true exactly when
0 < distance < 15 cm; `readDistance` yields the 999 sentinel exactly when
the echo pulse duration is 0, and the flag is false at 999. -/
theorem readUltrasonic_C4 (duration : Nat) :
    ((Sensors.readUltrasonic duration).2 = true ↔
      0 < (Sensors.readUltrasonic duration).1 ∧
        (Sensors.readUltrasonic duration).1 < DIST_OBSTACLE) ∧
    (Sensors.readDistance duration = 999 ↔ duration = 0) ∧
    Sensors.obstacleFlag 999 = false := by
  refine ⟨?_, ⟨?_, ?_⟩, by decide⟩
  · simp [Sensors.readUltrasonic, Sensors.obstacleFlag, and_comm]
  · intro h
    by_contra hd
    rw [Sensors.readDistance, if_neg hd] at h
    rw [ULTRA_SPEED_CM] at h
    have hq : (duration : ℚ) * 34 = 1998000 := by
      field_simp at h
      linarith
    have hn : duration * 34 = 1998000 := by exact_mod_cast hq
    omega
  · intro h
    rw [h]
    rfl

/-- Witness for C4 at duration 0 (sensor timeout). -/
theorem readUltrasonic_C4_witness :
    Sensors.readDistance 0 = 999 ∧ (Sensors.readUltrasonic 0).2 = false :=
  ⟨((readUltrasonic_C4 0).2.1).mpr rfl, by decide⟩

/-- C7: when all three channels exceed the BLACK threshold (200), both the
core classifier and the section-3 standalone classifier return BLACK,
regardless of the margins between channels. -/
theorem detectColor_C7 (r g b : Nat)
    (hr : r > COLOR_FREQ_BLACK) (hg : g > COLOR_FREQ_BLACK) (hb : b > COLOR_FREQ_BLACK) :
    Sensors.detectColor r g b = Color.BLACK ∧
    Sensors.detectColorSection3 r g b = Color.BLACK := by
  constructor
  · simp [Sensors.detectColor, hr, hg, hb]
  · simp [Sensors.detectColorSection3, hr, hg, hb]

/-- Witness for C7 at the triple sensor-timeout reading (999, 999, 999). -/
theorem detectColor_C7_witness :
    999 > COLOR_FREQ_BLACK ∧
    Sensors.detectColor 999 999 999 = Color.BLACK ∧
    Sensors.detectColorSection3 999 999 999 = Color.BLACK :=
  ⟨by decide,
   (detectColor_C7 999 999 999 (by decide) (by decide) (by decide)).1,
   (detectColor_C7 999 999 999 (by decide) (by decide) (by decide)).2⟩

/-- C10: the gripper's holding flag is commanded, not sensed: after
`Servos::pickup` it reads true and after `Servos::drop` it reads false,
for every prior servo state; consequently the section-1 PICKUP handler
always advances to FIND_INTERSECTION. -/
theorem servos_C10 (sv : ServoState) :
    Servos.isHolding (Servos.pickup sv) = true ∧
    Servos.isHolding (Servos.drop sv) = false ∧
    Section1.processPickup sv = (Servos.pickup sv, some S1State.FIND_INTERSECTION) :=
  ⟨rfl, rfl, rfl⟩

/-- On a tick whose color is unchanged, `navigateToCenter` takes its search
branch: increment the counter, and pivot / flip / reset exactly when the
incremented counter passes 5. -/
theorem navigateToCenter_sameTick (s : NavState) (data : SensorData)
    (h : ringSameTick data) :
    Navigation.navigateToCenter s data =
      if s.searchCount + 1 > 5 then
        ([MotorCmd.forward SPEED_SLOW, pivotCmd s.searchDirection, MotorCmd.stop],
         ⟨-s.searchDirection, 0⟩, NavResult.CONTINUE)
      else
        ([MotorCmd.forward SPEED_SLOW], ⟨s.searchDirection, s.searchCount + 1⟩,
         NavResult.CONTINUE) := by
  obtain ⟨h1, _⟩ := h
  rw [Navigation.navigateToCenter, if_neg (by simp [h1])]
  rfl

/-- C2: from a freshly reset search state, six consecutive ring-search
invocations whose color is unchanged and non-NONE issue exactly one
pivot, on the sixth invocation (right when `searchDirection > 0`, left
otherwise), then flip the direction and reset the counter; a second such
run of six pivots in the opposite direction. -/
theorem navigateToCenter_C2 (d : Int) (hd : d = 1 ∨ d = -1)
    (ds ds2 : List SensorData) (h6 : ds.length = 6) (h6b : ds2.length = 6)
    (hsame : ∀ x ∈ ds, ringSameTick x) (hsame2 : ∀ x ∈ ds2, ringSameTick x) :
    Navigation.navRun ⟨d, 0⟩ ds =
      ([[MotorCmd.forward SPEED_SLOW], [MotorCmd.forward SPEED_SLOW],
        [MotorCmd.forward SPEED_SLOW], [MotorCmd.forward SPEED_SLOW],
        [MotorCmd.forward SPEED_SLOW],
        [MotorCmd.forward SPEED_SLOW, pivotCmd d, MotorCmd.stop]], ⟨-d, 0⟩) ∧
    Navigation.navRun ⟨-d, 0⟩ ds2 =
      ([[MotorCmd.forward SPEED_SLOW], [MotorCmd.forward SPEED_SLOW],
        [MotorCmd.forward SPEED_SLOW], [MotorCmd.forward SPEED_SLOW],
        [MotorCmd.forward SPEED_SLOW],
        [MotorCmd.forward SPEED_SLOW, pivotCmd (-d), MotorCmd.stop]], ⟨d, 0⟩) ∧
    pivotCmd (-d) ≠ pivotCmd d := by
  have run6 : ∀ e : Int, ∀ l : List SensorData, l.length = 6 →
      (∀ x ∈ l, ringSameTick x) →
      Navigation.navRun ⟨e, 0⟩ l =
        ([[MotorCmd.forward SPEED_SLOW], [MotorCmd.forward SPEED_SLOW],
          [MotorCmd.forward SPEED_SLOW], [MotorCmd.forward SPEED_SLOW],
          [MotorCmd.forward SPEED_SLOW],
          [MotorCmd.forward SPEED_SLOW, pivotCmd e, MotorCmd.stop]], ⟨-e, 0⟩) := by
    intro e l hl hs
    rcases l with _ | ⟨a, _ | ⟨b, _ | ⟨c, _ | ⟨p, _ | ⟨q, _ | ⟨r, rest⟩⟩⟩⟩⟩⟩ <;>
      simp only [List.length_nil, List.length_cons] at hl <;> try omega
    have hrest : rest = [] := by
      have : rest.length = 0 := by omega
      simpa [List.length_eq_zero] using this
    subst hrest
    have ha := hs a (by simp)
    have hb := hs b (by simp)
    have hc := hs c (by simp)
    have hp := hs p (by simp)
    have hq := hs q (by simp)
    have hr := hs r (by simp)
    simp only [Navigation.navRun,
      navigateToCenter_sameTick _ _ ha, navigateToCenter_sameTick _ _ hb,
      navigateToCenter_sameTick _ _ hc, navigateToCenter_sameTick _ _ hp,
      navigateToCenter_sameTick _ _ hq, navigateToCenter_sameTick _ _ hr]
    norm_num
  refine ⟨run6 d ds h6 hsame, ?_, ?_⟩
  · have h2 := run6 (-d) ds2 h6b hsame2
    simpa using h2
  · rcases hd with rfl | rfl <;> decide

/-- Witness for C2: six steady-GREEN ticks starting right, then six more
pivoting left. -/
theorem navigateToCenter_C2_witness :
    ((1 : Int) = 1 ∨ (1 : Int) = -1) ∧ sixSteadyGreen.length = 6 ∧
    (∀ x ∈ sixSteadyGreen, ringSameTick x) ∧
    Navigation.navRun ⟨1, 0⟩ sixSteadyGreen =
      ([[MotorCmd.forward SPEED_SLOW], [MotorCmd.forward SPEED_SLOW],
        [MotorCmd.forward SPEED_SLOW], [MotorCmd.forward SPEED_SLOW],
        [MotorCmd.forward SPEED_SLOW],
        [MotorCmd.forward SPEED_SLOW, pivotCmd 1, MotorCmd.stop]], ⟨-1, 0⟩) ∧
    Navigation.navRun ⟨-1, 0⟩ sixSteadyGreen =
      ([[MotorCmd.forward SPEED_SLOW], [MotorCmd.forward SPEED_SLOW],
        [MotorCmd.forward SPEED_SLOW], [MotorCmd.forward SPEED_SLOW],
        [MotorCmd.forward SPEED_SLOW],
        [MotorCmd.forward SPEED_SLOW, pivotCmd (-1), MotorCmd.stop]], ⟨1, 0⟩) ∧
    pivotCmd (-1) ≠ pivotCmd 1 := by
  have h := navigateToCenter_C2 1 (Or.inl rfl) sixSteadyGreen sixSteadyGreen
    (by decide) (by decide) (by decide) (by decide)
  exact ⟨Or.inl rfl, by decide, by decide, h.1, h.2.1, h.2.2⟩

/-- C6 counterexample: the claim fails for section 1's FOLLOW_GREEN state,
which waits on seeing BLUE with no wall-clock fallback.  Under a sensor
that always reports NONE and no detection, 200 consecutive ticks (10
seconds at the 50 ms loop delay, beyond every 3-5 s budget the spec
names) produce no transition out of the state. -/
theorem followGreen_C6_counterexample :
    allNoneSnapshot.detectedColor = Color.NONE ∧
    allNoneSnapshot.obstacleDetected = false ∧
    Section1.followGreenRun allNoneSnapshot 200 0 = none := by
  refine ⟨rfl, rfl, ?_⟩
  decide

/-- C6 (amended): the TO_REUPLOAD state does carry a forced fallback — more
than 3000 ms in the state forces a transition to COMPLETE regardless of
the snapshot — but not every waiting state has one: the FOLLOW_GREEN
state transitions only on seeing BLUE, so a snapshot without BLUE never
leaves it, for any lost-counter value and any number of ticks. -/
theorem section1Fallback_C6 :
    (∀ (count : Nat) (data : SensorData) (now stateStart : Nat),
      now - stateStart > 3000 →
      (Section1.processToReupload count data now stateStart).1 = some S1State.COMPLETE) ∧
    (∀ (count : Nat) (data : SensorData), data.detectedColor ≠ Color.BLUE →
      (Section1.processFollowGreen count data).1 = none) ∧
    (∀ (data : SensorData), data.detectedColor ≠ Color.BLUE →
      ∀ (n count : Nat), Section1.followGreenRun data n count = none) := by
  refine ⟨?_, ?_, ?_⟩
  · intro count data now stateStart h
    simp [Section1.processToReupload, h]
  · intro count data h
    simp [Section1.processFollowGreen, h]
  · intro data h n
    induction n with
    | zero => intro count; rfl
    | succ m ih =>
      intro count
      simp [Section1.followGreenRun, Section1.processFollowGreen, h, ih]

/-- Witness for C6 at concrete inputs: a 4000 ms elapsed TO_REUPLOAD tick
transitions to COMPLETE, and an always-NONE FOLLOW_GREEN tick does not
transition. -/
theorem section1Fallback_C6_witness :
    (4000 - 0 > 3000) ∧
    (Section1.processToReupload 0 allNoneSnapshot 4000 0).1 = some S1State.COMPLETE ∧
    allNoneSnapshot.detectedColor ≠ Color.BLUE ∧
    Section1.followGreenRun allNoneSnapshot 20 0 = none :=
  ⟨by decide,
   section1Fallback_C6.1 0 allNoneSnapshot 4000 0 (by decide),
   by decide,
   section1Fallback_C6.2.2 allNoneSnapshot (by decide) 20 0⟩

/-- The wall-hug loop body issues at most `fuel` drive calls, takes at most
`fuel` distance readings, every call it issues is forward or curveRight,
and in particular it never issues `stop`. -/
theorem wallHugAux_bounds (ds : Nat → ℚ) :
    ∀ (fuel i : Nat),
      (Navigation.wallHugAux ds fuel i).1.length ≤ fuel ∧
      (Navigation.wallHugAux ds fuel i).2 ≤ fuel ∧
      ∀ c ∈ (Navigation.wallHugAux ds fuel i).1,
        c = MotorCmd.forward SPEED_NORMAL ∨ c = MotorCmd.curveRight SPEED_NORMAL := by
  intro fuel
  induction fuel with
  | zero =>
    intro i
    simp [Navigation.wallHugAux]
  | succ n ih =>
    intro i
    obtain ⟨ihLen, ihCnt, ihMem⟩ := ih (i + 1)
    unfold Navigation.wallHugAux
    dsimp only
    split_ifs with h1 h2 h3
    · refine ⟨by simpa using Nat.succ_le_succ ihLen, by omega, ?_⟩
      intro c hc
      rcases List.mem_cons.mp hc with rfl | hc
      · exact Or.inr rfl
      · exact ihMem c hc
    · refine ⟨by simpa using Nat.succ_le_succ ihLen, by omega, ?_⟩
      intro c hc
      rcases List.mem_cons.mp hc with rfl | hc
      · exact Or.inl rfl
      · exact ihMem c hc
    · simp
    · exact ⟨le_trans ihLen (by omega), by omega, ihMem⟩

/-- C5: for every sequence of wall-hug distance readings, the obstacle
avoidance maneuver starts and ends with `stop`, and its steering
commands (the trace with the inter-step stops removed) are exactly
pivot right, forward, pivot left, then the wall-hug calls (at most the
30-step budget, each forward or curve-away), then pivot left, forward,
pivot right. -/
theorem avoidObstacleRight_C5 (ds : Nat → ℚ) :
    ∃ w : List MotorCmd,
      (Navigation.avoidObstacleRight ds).1.head? = some MotorCmd.stop ∧
      (Navigation.avoidObstacleRight ds).1.getLast? = some MotorCmd.stop ∧
      nonStop (Navigation.avoidObstacleRight ds).1 =
        [MotorCmd.turnRight SPEED_TURN, MotorCmd.forward SPEED_NORMAL,
         MotorCmd.turnLeft SPEED_TURN]
          ++ w
          ++ [MotorCmd.turnLeft SPEED_TURN, MotorCmd.forward SPEED_NORMAL,
              MotorCmd.turnRight SPEED_TURN] ∧
      w.length ≤ 30 ∧
      (∀ c ∈ w, c = MotorCmd.forward SPEED_NORMAL ∨ c = MotorCmd.curveRight SPEED_NORMAL) := by
  obtain ⟨hLen, _, hMem⟩ := wallHugAux_bounds ds 30 0
  refine ⟨(Navigation.wallHugAux ds 30 0).1, ?_, ?_, ?_, hLen, hMem⟩
  · rfl
  · have : (Navigation.avoidObstacleRight ds).1 =
        ([MotorCmd.stop] ++ Navigation.turn 90 SPEED_TURN
          ++ [MotorCmd.forward SPEED_NORMAL] ++ Navigation.turn (-90) SPEED_TURN
          ++ (Navigation.wallHugAux ds 30 0).1 ++ [MotorCmd.stop]
          ++ Navigation.turn (-90) SPEED_TURN ++ [MotorCmd.forward SPEED_NORMAL]
          ++ Navigation.turn 90 SPEED_TURN) ++ [MotorCmd.stop] := by
      simp [Navigation.avoidObstacleRight, Navigation.wallHugUntilClear]
    rw [this, List.getLast?_concat]
  · have hW : List.filter (fun c => decide (c ≠ MotorCmd.stop))
        (Navigation.wallHugAux ds 30 0).1 = (Navigation.wallHugAux ds 30 0).1 := by
      rw [List.filter_eq_self]
      intro c hc
      rcases hMem c hc with rfl | rfl <;> decide
    unfold nonStop
    simp only [Navigation.avoidObstacleRight, Navigation.wallHugUntilClear,
      Navigation.turn]
    simp +decide [List.filter_append, List.filter_cons, hW]
    intro a ha
    rcases hMem a ha with rfl | rfl <;> decide

/-- The wall-hug loop body is exactly the four-zone reference loop: its
branch structure agrees with `hugZone` at every reading. -/
theorem wallHugAux_eq_zones (ds : Nat → ℚ) :
    ∀ (fuel i : Nat), Navigation.wallHugAux ds fuel i = wallHugZonesAux ds fuel i := by
  intro fuel
  induction fuel with
  | zero => intro i; rfl
  | succ n ih =>
    intro i
    unfold Navigation.wallHugAux wallHugZonesAux hugZone
    dsimp only
    split_ifs <;> simp [ih]

/-- With every reading equal to 17 cm the wall-hug loop body takes no
branch: it issues no drive call and consumes its whole fuel in
readings. -/
theorem wallHugAux_const17 :
    ∀ (fuel i : Nat), Navigation.wallHugAux (fun _ => 17) fuel i = ([], fuel) := by
  intro fuel
  induction fuel with
  | zero => intro i; rfl
  | succ n ih =>
    intro i
    unfold Navigation.wallHugAux
    dsimp only
    rw [if_neg (by norm_num [DIST_WALL_HUG]), if_neg (by norm_num [DIST_WALL_HUG]),
      if_neg (by norm_num [DIST_WALL_HUG]), ih]

/-- C9 counterexample: the reading 17 cm (between hug distance + 5 and hug
distance + 10) falls in none of the claim's three zones, and a wall-hug
invocation whose readings are all 17 issues no steering command at all:
it spends the whole 30-reading budget looping, then stops.  The claim's
"exactly three zones" misses this dead band. -/
theorem wallHug_C9_counterexample :
    ¬ threeZoneCover 17 ∧
    Navigation.wallHugUntilClear (fun _ => 17) 30 = ([MotorCmd.stop], 30) := by
  constructor
  · intro h
    rcases h with h | ⟨_, h⟩ | h | h <;> norm_num [DIST_WALL_HUG] at h
  · rw [Navigation.wallHugUntilClear, wallHugAux_const17]
    rfl

/-- C9 (amended): every invocation of `Navigation::wallHugUntilClear` takes
at most `maxSteps` distance readings, behaves as the FOUR-zone reference
loop (too close: curve away; in tolerance: straight; wall lost: exit
early; dead band between hug+5 and hug+10: no command, keep looping),
and always ends with the drive stopped. -/
theorem wallHugUntilClear_C9 (ds : Nat → ℚ) (maxSteps : Nat) :
    (Navigation.wallHugUntilClear ds maxSteps).2 ≤ maxSteps ∧
    (Navigation.wallHugUntilClear ds maxSteps).1.getLast? = some MotorCmd.stop ∧
    Navigation.wallHugAux ds maxSteps 0 = wallHugZonesAux ds maxSteps 0 := by
  obtain ⟨-, hCnt, -⟩ := wallHugAux_bounds ds maxSteps 0
  exact ⟨hCnt, by rw [Navigation.wallHugUntilClear]; exact List.getLast?_concat _,
    wallHugAux_eq_zones ds maxSteps 0⟩

/-- C8 counterexample: at (130, 150, 150) — not in the BLACK or WHITE
stages — the other channels exceed red by exactly the margin 20, so the
claim's "lower by at least the margin" rule classifies RED, but
`Sensors::detectColor` demands a strict excess and returns NONE. -/
theorem detectColor_C8_counterexample :
    ¬ (130 > COLOR_FREQ_BLACK ∧ 150 > COLOR_FREQ_BLACK ∧ 150 > COLOR_FREQ_BLACK) ∧
    ¬ (130 < COLOR_FREQ_WHITE ∧ 150 < COLOR_FREQ_WHITE ∧ 150 < COLOR_FREQ_WHITE) ∧
    specAtLeastMarginStage 130 150 150 = Color.RED ∧
    Sensors.detectColor 130 150 150 = Color.NONE := by
  refine ⟨by decide, by decide, by decide, by decide⟩

/-- C8 (amended): for every input not classified BLACK or WHITE, the
classifier returns the first channel in the fixed order RED, GREEN, BLUE
whose value is lower than each of the other two channels by STRICTLY
MORE than the margin (20) and below the validity ceiling (150), and NONE
when no channel satisfies this; in particular classify(50, 150, 150) =
RED. -/
theorem detectColor_C8 (r g b : Nat)
    (hb : ¬ (r > COLOR_FREQ_BLACK ∧ g > COLOR_FREQ_BLACK ∧ b > COLOR_FREQ_BLACK))
    (hw : ¬ (r < COLOR_FREQ_WHITE ∧ g < COLOR_FREQ_WHITE ∧ b < COLOR_FREQ_WHITE)) :
    Sensors.detectColor r g b = strictMarginStage r g b ∧
    Sensors.detectColor 50 150 150 = Color.RED := by
  refine ⟨?_, by decide⟩
  rw [Sensors.detectColor, if_neg hb, if_neg hw, strictMarginStage]
  split_ifs <;> first
    | rfl
    | omega

/-- Witness for C8 at (50, 150, 150). -/
theorem detectColor_C8_witness :
    ¬ (50 > COLOR_FREQ_BLACK ∧ 150 > COLOR_FREQ_BLACK ∧ 150 > COLOR_FREQ_BLACK) ∧
    ¬ (50 < COLOR_FREQ_WHITE ∧ 150 < COLOR_FREQ_WHITE ∧ 150 < COLOR_FREQ_WHITE) ∧
    Sensors.detectColor 50 150 150 = strictMarginStage 50 150 150 ∧
    Sensors.detectColor 50 150 150 = Color.RED :=
  ⟨by decide, by decide,
   (detectColor_C8 50 150 150 (by decide) (by decide)).1,
   (detectColor_C8 50 150 150 (by decide) (by decide)).2⟩
